import Mathlib

/-!
Shallow embedding of the tourism-map dashboard (`src/app.py`) and proofs
about its data pipeline: month filter, inner join on region code, numeric
coercion with row dropping, min-max visual encoding, top-10 selection,
render-cycle structure, month-selection session state, and the sidebar
yearly statistics.

Numbers are modelled as rationals.  A cell of the loaded tables that is
missing or non-numeric is `none` (pandas NaN); pandas `sum()` skips NaN,
`astype(int)` truncates a finite float toward zero and fails on a
non-finite value (NaN or infinity).
-/

namespace TourismApp

/-- A row of the visit-count table `city2024.csv`:
`地域コード` (region code), `月` (month), `人数` (visitor count, `none`
when the cell is missing or non-numeric, i.e. NaN). -/
structure VisitRecord where
  code : String
  month : ℕ
  count : Option ℚ
deriving DecidableEq, Repr

/-- A row of the coordinate table `city_latlon.csv`:
`地域コード`, `地域名称` (region name), `緯度` (latitude), `経度`
(longitude); latitude/longitude are `none` when missing/non-numeric. -/
structure CoordRecord where
  code : String
  name : String
  lat : Option ℚ
  lon : Option ℚ
deriving DecidableEq, Repr

/-- A surviving row of `map_data`: `地域名称`, `緯度`, `経度`, `観光者数`
after numeric coercion and `dropna()`. -/
structure JoinedRow where
  name : String
  lat : ℚ
  lon : ℚ
  count : ℚ
deriving DecidableEq, Repr

/-- Line 52: `tourism_data[tourism_data['月'] == month_to_show]`. -/
def monthlyData (t : List VisitRecord) (m : ℕ) : List VisitRecord :=
  t.filter (fun v => v.month = m)

/-- Lines 55-60: `pd.merge(monthly_data, coord_data, on='地域コード',
how='inner')`: every left row paired with every matching right row,
left order preserved, matches in right-table order. -/
def mergeOn (vs : List VisitRecord) (cs : List CoordRecord) :
    List (VisitRecord × CoordRecord) :=
  vs.flatMap (fun v => (cs.filter (fun c => c.code = v.code)).map (fun c => (v, c)))

/-- Lines 63-68: `pd.to_numeric(..., errors='coerce')` on `人数`, `緯度`,
`経度` (identity on our `Option ℚ` cells), projection to
`['地域名称','緯度','経度','観光者数']` and `dropna()`:
a row survives iff all three numeric cells are present. -/
def coerceDrop (ps : List (VisitRecord × CoordRecord)) : List JoinedRow :=
  ps.filterMap (fun p =>
    match p.1.count, p.2.lat, p.2.lon with
    | some q, some la, some lo => some ⟨p.2.name, la, lo, q⟩
    | _, _, _ => none)

/-- The whole monthly pipeline producing `map_data` (lines 52-68). -/
def mapData (t : List VisitRecord) (c : List CoordRecord) (m : ℕ) :
    List JoinedRow :=
  coerceDrop (mergeOn (monthlyData t m) c)

/-- Line 82: `map_data['観光者数'].max()`; 0 on the empty set (never used
there: the encoder runs only under the `len(map_data) > 0` guard). -/
def maxV : List JoinedRow → ℚ
  | [] => 0
  | [r] => r.count
  | r :: s :: rs => max r.count (maxV (s :: rs))

/-- Line 83: `map_data['観光者数'].min()`. -/
def minV : List JoinedRow → ℚ
  | [] => 0
  | [r] => r.count
  | r :: s :: rs => min r.count (minV (s :: rs))

/-- Lines 85-88: `size = 100 + (v - min_v)/(max_v - min_v) * 4900` when
`max_v > min_v`, else the constant 1000. -/
def encSize (minv maxv v : ℚ) : ℚ :=
  if maxv > minv then 100 + (v - minv) / (maxv - minv) * 4900 else 1000

/-- The float division `(v - min_v) / (max_v - min_v)`: non-finite
(NaN when 0/0, ±inf otherwise) when the denominator is zero, modelled
as `none`. -/
def nanFrac (minv maxv v : ℚ) : Option ℚ :=
  if maxv - minv = 0 then none else some ((v - minv) / (maxv - minv))

/-- Truncation toward zero, the numpy float→int cast. -/
def truncQ (x : ℚ) : ℤ :=
  if 0 ≤ x then ⌊x⌋ else ⌈x⌉

/-- Lines 91-92: `.astype(int)` truncates a finite value toward zero;
on a non-finite value (NaN or inf) the cast fails
(`IntCastingNaNError`), modelled as `none`. -/
def astypeInt : Option ℚ → Option ℤ
  | none => none
  | some x => some (truncQ x)

/-- Line 91: `((v - min_v)/(max_v - min_v) * 255).astype(int)`,
computed unconditionally (no `max_v > min_v` branch for colors). -/
def colorR (minv maxv v : ℚ) : Option ℤ :=
  astypeInt ((nanFrac minv maxv v).map (fun f => f * 255))

/-- Line 92: `(255 - (v - min_v)/(max_v - min_v) * 100).astype(int)`. -/
def colorG (minv maxv v : ℚ) : Option ℤ :=
  astypeInt ((nanFrac minv maxv v).map (fun f => 255 - f * 100))

/-- A row of `map_data` after the size/color columns are added
(lines 85-93); `color_b = 50`, alpha 160 fixed at line 109. -/
structure EncodedPoint where
  row : JoinedRow
  size : ℚ
  color_r : Option ℤ
  color_g : Option ℤ
  color_b : ℤ
deriving DecidableEq, Repr

/-- The Visual Encoder (lines 82-93) applied to the current `map_data`. -/
def encode (xs : List JoinedRow) : List EncodedPoint :=
  let maxv := maxV xs
  let minv := minV xs
  xs.map (fun r =>
    ⟨r, encSize minv maxv r.count, colorR minv maxv r.count,
      colorG minv maxv r.count, 50⟩)

/-- Line 135: `map_data.nlargest(10, '観光者数')`, the 10 largest rows by
visitor count, ties resolved by original position (`keep='first'`),
i.e. a stable descending sort truncated to 10. -/
def nlargest10 (xs : List JoinedRow) : List JoinedRow :=
  (List.insertionSort (fun a b => b.count ≤ a.count) xs).take 10

/-! ## Month-selection session state (lines 29-48) -/

/-- Line 42: `st.session_state.selected_month = 1` on first use. -/
def initialMonth : ℕ := 1

/-- Lines 34-45 of one re-render: button `i` (for `i in range(12)`,
`month = i + 1`) sets `selected_month = month`; with no click
(`selected_month is None`) the session value is kept. -/
def stepMonth (s : ℕ) : Option (Fin 12) → ℕ
  | some i => i.val + 1
  | none => s

/-- The session value after a sequence of re-renders, starting from the
initialized value. -/
def runMonths (as : List (Option (Fin 12))) : ℕ :=
  as.foldl stepMonth initialMonth

/-! ## Render cycle (lines 70-196) -/

/-- The sidebar yearly statistics (lines 163-196), computed from the raw
loaded tables only. -/
structure SidebarOutput where
  /-- Lines 168-169: per-region annual totals inner-joined to
  coordinates; computed but not rendered further. -/
  totalMerged : List ((String × ℚ) × CoordRecord)
  /-- Line 171: `tourism_data['人数'].sum()` (NaN cells skipped). -/
  annualTotal : ℚ
  /-- Line 172: `tourism_data.groupby('月')['人数'].sum().mean()`;
  NaN (`none`) when the table is empty. -/
  monthlyMean : Option ℚ
  /-- Lines 175-176: per-month totals, one point per month present in the
  data, in ascending month order (pandas `groupby` sorts its keys). -/
  monthlyTrend : List (ℕ × ℚ)
deriving DecidableEq, Repr

/-- pandas `Series.sum()` with the default `skipna=True`. -/
def skipnaSum (xs : List (Option ℚ)) : ℚ :=
  (xs.filterMap id).sum

/-- The `tourism_data.groupby('月')` keys: the distinct months present,
ascending. -/
def monthKeys (t : List VisitRecord) : List ℕ :=
  List.insertionSort (fun a b => a ≤ b) (t.map (fun v => v.month)).dedup

/-- One value of `tourism_data.groupby('月')['人数'].sum()`. -/
def monthSum (t : List VisitRecord) (m : ℕ) : ℚ :=
  skipnaSum ((t.filter (fun v => v.month = m)).map (fun v => v.count))

/-- Line 168: `tourism_data.groupby('地域コード')['人数'].sum()` as
(code, total) pairs, keys ascending. -/
def regionTotals (t : List VisitRecord) : List (String × ℚ) :=
  (List.insertionSort (fun a b => a ≤ b) (t.map (fun v => v.code)).dedup).map
    (fun k => (k, skipnaSum ((t.filter (fun v => v.code = k)).map (fun v => v.count))))

/-- The sidebar block (lines 163-196).  It reads only `tourism_data` and
`coord_data`, never the selected month. -/
def sidebarView (t : List VisitRecord) (c : List CoordRecord) : SidebarOutput :=
  { totalMerged :=
      (regionTotals t).flatMap (fun p =>
        (c.filter (fun cr => cr.code = p.1)).map (fun cr => (p, cr)))
    annualTotal := skipnaSum (t.map (fun v => v.count))
    monthlyMean :=
      if (monthKeys t).length = 0 then none
      else some (((monthKeys t).map (monthSum t)).sum / (monthKeys t).length)
    monthlyTrend := (monthKeys t).map (fun m => (m, monthSum t m)) }

/-- Line 91 raises `IntCastingNaNError` iff the red-channel cast fails
on some row of the column (a non-finite value reaches `astype(int)`),
which happens exactly when all counts of a non-empty `map_data` are
equal; the uncaught exception aborts the script, so nothing after
line 91 is rendered in that cycle. -/
def abortsAtLine91 (md : List JoinedRow) : Bool :=
  md.any (fun r => (colorR (minV md) (maxV md) r.count).isNone)

/-- Everything one render cycle of the script puts on the page, as data.
Renderers inside the `len(map_data) > 0` branch are `Option`s: `none`
means the widget was never touched in this cycle (branch not taken, or
the script aborted at line 91 before reaching it). -/
structure RenderOutput where
  /-- Line 73: total visitor count metric (`sum()` of `map_data`);
  rendered before the guard, so always shown. -/
  totalMetric : ℚ
  /-- Line 75: mean visitor count metric; NaN (`none`) on the empty set. -/
  meanMetric : Option ℚ
  /-- Line 77: region count metric (`len(map_data)`). -/
  regionCountMetric : ℕ
  /-- Lines 96-130: the pydeck scatter map over the encoded points;
  only reached when line 91 did not abort. -/
  mapView : Option (List EncodedPoint)
  /-- Lines 139-154: the top-10 bar chart, ascending by value
  (`top10.sort_values('観光者数')`). -/
  top10Chart : Option (List JoinedRow)
  /-- Lines 157-158: the top-10 detail table with 1-based row index. -/
  top10Table : Option (List (ℕ × JoinedRow))
  /-- Line 161: `st.warning("表示するデータがありません。")`. -/
  noDataWarning : Bool
  /-- Whether this cycle died at line 91 with `IntCastingNaNError`. -/
  errorAbort : Bool
  /-- Lines 163-196: the sidebar yearly view; `none` when the cycle
  aborted at line 91 before the sidebar block ran. -/
  sidebar : Option SidebarOutput
deriving DecidableEq, Repr

/-- One render cycle of the script body (lines 47-196), as a function of
the loaded tables and the session month.  Statements executed before
line 91 (the metric widgets, the no-data warning) are unconditional in
their branch; everything after line 91 is produced only when the color
cast did not abort the cycle. -/
def render (t : List VisitRecord) (c : List CoordRecord) (m : ℕ) :
    RenderOutput :=
  let md := mapData t c m
  { totalMetric := (md.map (fun r => r.count)).sum
    meanMetric :=
      if md.length = 0 then none
      else some ((md.map (fun r => r.count)).sum / md.length)
    regionCountMetric := md.length
    mapView :=
      if 0 < md.length ∧ abortsAtLine91 md = false then some (encode md)
      else none
    top10Chart :=
      if 0 < md.length ∧ abortsAtLine91 md = false then
        some (List.insertionSort (fun a b => a.count ≤ b.count) (nlargest10 md))
      else none
    top10Table :=
      if 0 < md.length ∧ abortsAtLine91 md = false then
        some ((nlargest10 md).enum.map (fun p => (p.1 + 1, p.2)))
      else none
    noDataWarning := md.length = 0
    errorAbort := abortsAtLine91 md
    sidebar :=
      if abortsAtLine91 md = true then none else some (sidebarView t c) }

/-! ## Helper lemmas -/

theorem le_maxV {xs : List JoinedRow} {r : JoinedRow} (h : r ∈ xs) :
    r.count ≤ maxV xs := by
  induction xs with
  | nil => cases h
  | cons a l ih =>
    cases l with
    | nil =>
      rw [List.mem_singleton.mp h]
      simp [maxV]
    | cons b l' =>
      rcases List.mem_cons.mp h with h | h
      · rw [h]; simp [maxV]
      · exact le_trans (ih h) (by simp [maxV])

theorem minV_le {xs : List JoinedRow} {r : JoinedRow} (h : r ∈ xs) :
    minV xs ≤ r.count := by
  induction xs with
  | nil => cases h
  | cons a l ih =>
    cases l with
    | nil =>
      rw [List.mem_singleton.mp h]
      simp [minV]
    | cons b l' =>
      rcases List.mem_cons.mp h with h | h
      · rw [h]; simp [minV]
      · exact le_trans (by simp [minV]) (ih h)

theorem frac_nonneg {minv maxv v : ℚ} (h : minv < maxv) (hv : minv ≤ v) :
    0 ≤ (v - minv) / (maxv - minv) :=
  div_nonneg (by linarith) (by linarith)

theorem frac_le_one {minv maxv v : ℚ} (h : minv < maxv) (hv : v ≤ maxv) :
    (v - minv) / (maxv - minv) ≤ 1 := by
  rw [div_le_one (by linarith)]
  linarith

theorem frac_mono {minv maxv a b : ℚ} (h : minv < maxv) (hab : a ≤ b) :
    (a - minv) / (maxv - minv) ≤ (b - minv) / (maxv - minv) :=
  (div_le_div_iff_of_pos_right (by linarith)).mpr (by linarith)

/-- With a genuine spread and a value at least the minimum, the red
channel is the floor (= truncation, the operand being nonnegative) of
the normalized fraction times 255. -/
theorem colorR_eq {minv maxv v : ℚ} (h : minv < maxv) (hv : minv ≤ v) :
    colorR minv maxv v = some ⌊(v - minv) / (maxv - minv) * 255⌋ := by
  have hne : maxv - minv ≠ 0 := ne_of_gt (by linarith)
  have h0 : (0 : ℚ) ≤ (v - minv) / (maxv - minv) * 255 :=
    mul_nonneg (frac_nonneg h hv) (by norm_num)
  simp [colorR, nanFrac, astypeInt, truncQ, hne, h0]

/-- With a genuine spread and a value at most the maximum, the green
channel is the floor of `255 - frac * 100`. -/
theorem colorG_eq {minv maxv v : ℚ} (h : minv < maxv) (hv : v ≤ maxv) :
    colorG minv maxv v = some ⌊255 - (v - minv) / (maxv - minv) * 100⌋ := by
  have hne : maxv - minv ≠ 0 := ne_of_gt (by linarith)
  have h1 : (v - minv) / (maxv - minv) ≤ 1 := frac_le_one h hv
  have h0 : (0 : ℚ) ≤ 255 - (v - minv) / (maxv - minv) * 100 := by nlinarith
  simp [colorG, nanFrac, astypeInt, truncQ, hne, h0]

/-! ## Witness fixtures -/

/-- Region "A" of the spec's concrete scenario (count 1000; coordinates
rounded to whole degrees, immaterial to the encoders). -/
def rowA : JoinedRow := ⟨"A", 35, 139, 1000⟩

/-- Region "B" of the spec's concrete scenario (count 3000). -/
def rowB : JoinedRow := ⟨"B", 36, 140, 3000⟩

/-- The two-row `map_data` of the spec's concrete scenario. -/
def exRows : List JoinedRow := [rowA, rowB]

/-- Rows with counts 0, 1, 2: the middle normalized fraction is 1/2,
where truncation (127) and rounding (128) of `1/2 * 255` disagree. -/
def cexRows : List JoinedRow := [⟨"A", 1, 2, 0⟩, ⟨"B", 1, 2, 1⟩, ⟨"C", 1, 2, 2⟩]

/-! ## Claims -/

/-- C1: on an all-equal (here two-row, equal-count) `map_data`, every
size is 1000 as specified, but the color columns are not (0, 255, 50):
the normalization denominator is zero, the fractions are non-finite, and
`.astype(int)` fails (lines 91-92 have no `max_v > min_v` branch), so no
color value is produced at all. -/
theorem C1_degenerate_colors_fail :
    (encode [⟨"甲", 35, 139, 500⟩, ⟨"乙", 36, 140, 500⟩]).map
        (fun p => (p.size, p.color_r, p.color_g, p.color_b))
      = [(1000, none, none, 50), (1000, none, none, 50)] := by
  norm_num [encode, minV, maxV, encSize, colorR, colorG, nanFrac, astypeInt]

/-- C3: with a genuine spread, size and the red channel are monotonically
non-decreasing in visitor count over the rows of the set, and the green
channel is monotonically non-increasing. -/
theorem C3_encoding_monotone (xs : List JoinedRow) (hlt : minV xs < maxV xs)
    (r s : JoinedRow) (hr : r ∈ xs) (hs : s ∈ xs) (hle : r.count ≤ s.count) :
    encSize (minV xs) (maxV xs) r.count ≤ encSize (minV xs) (maxV xs) s.count ∧
    (∃ a b : ℤ, colorR (minV xs) (maxV xs) r.count = some a ∧
      colorR (minV xs) (maxV xs) s.count = some b ∧ a ≤ b) ∧
    (∃ a b : ℤ, colorG (minV xs) (maxV xs) r.count = some a ∧
      colorG (minV xs) (maxV xs) s.count = some b ∧ b ≤ a) := by
  have hfr : (r.count - minV xs) / (maxV xs - minV xs)
      ≤ (s.count - minV xs) / (maxV xs - minV xs) := frac_mono hlt hle
  refine ⟨?_, ?_, ?_⟩
  · simp only [encSize, if_pos hlt]
    linarith
  · exact ⟨_, _, colorR_eq hlt (minV_le hr), colorR_eq hlt (minV_le hs),
      Int.floor_le_floor (by linarith)⟩
  · exact ⟨_, _, colorG_eq hlt (le_maxV hr), colorG_eq hlt (le_maxV hs),
      Int.floor_le_floor (by linarith)⟩

/-- Witness for C3 on the spec's two-row scenario. -/
theorem C3_encoding_monotone_witness :
    minV exRows < maxV exRows ∧ rowA ∈ exRows ∧ rowB ∈ exRows ∧
      rowA.count ≤ rowB.count ∧
      (encSize (minV exRows) (maxV exRows) rowA.count
          ≤ encSize (minV exRows) (maxV exRows) rowB.count ∧
        (∃ a b : ℤ, colorR (minV exRows) (maxV exRows) rowA.count = some a ∧
          colorR (minV exRows) (maxV exRows) rowB.count = some b ∧ a ≤ b) ∧
        (∃ a b : ℤ, colorG (minV exRows) (maxV exRows) rowA.count = some a ∧
          colorG (minV exRows) (maxV exRows) rowB.count = some b ∧ b ≤ a)) :=
  ⟨by decide, by decide, by decide, by decide,
    C3_encoding_monotone exRows (by decide) rowA rowB (by decide) (by decide)
      (by decide)⟩

/-- C4 (counterexample): on counts {0, 1, 2} the middle row's red channel
is 127 (truncation of 127.5), not `round(127.5) = 128` as the claim's
formula states. -/
theorem C4_round_counterexample :
    colorR (minV cexRows) (maxV cexRows) 1
      ≠ some (round (((1 : ℚ) - minV cexRows) / (maxV cexRows - minV cexRows) * 255)) := by
  norm_num [cexRows, minV, maxV, colorR, nanFrac, astypeInt, truncQ, round_eq]

/-- C4 (amended): with a genuine spread, the red channel is the
truncation (floor, the operand being nonnegative) of `frac * 255` and
lies in [0, 255]; the green channel is the truncation of
`255 - frac * 100` and lies in [155, 255]. -/
theorem C4_truncated_color_ranges (xs : List JoinedRow)
    (hlt : minV xs < maxV xs) (r : JoinedRow) (hr : r ∈ xs) :
    ∃ a b : ℤ,
      colorR (minV xs) (maxV xs) r.count = some a ∧
      a = ⌊(r.count - minV xs) / (maxV xs - minV xs) * 255⌋ ∧
      0 ≤ a ∧ a ≤ 255 ∧
      colorG (minV xs) (maxV xs) r.count = some b ∧
      b = ⌊255 - (r.count - minV xs) / (maxV xs - minV xs) * 100⌋ ∧
      155 ≤ b ∧ b ≤ 255 := by
  have h0 := frac_nonneg hlt (minV_le hr)
  have h1 := frac_le_one hlt (le_maxV hr)
  refine ⟨_, _, colorR_eq hlt (minV_le hr), rfl, ?_, ?_,
    colorG_eq hlt (le_maxV hr), rfl, ?_, ?_⟩
  · exact Int.floor_nonneg.mpr (by nlinarith)
  · have hub : (r.count - minV xs) / (maxV xs - minV xs) * 255 ≤ 255 := by nlinarith
    have := (Int.floor_le ((r.count - minV xs) / (maxV xs - minV xs) * 255)).trans hub
    exact_mod_cast this
  · exact Int.le_floor.mpr (by push_cast; nlinarith)
  · have hub : 255 - (r.count - minV xs) / (maxV xs - minV xs) * 100 ≤ 255 := by nlinarith
    have := (Int.floor_le (255 - (r.count - minV xs) / (maxV xs - minV xs) * 100)).trans hub
    exact_mod_cast this

/-- Witness for C4's amended theorem on the spec's two-row scenario. -/
theorem C4_truncated_color_ranges_witness :
    minV exRows < maxV exRows ∧ rowB ∈ exRows ∧
      (∃ a b : ℤ,
        colorR (minV exRows) (maxV exRows) rowB.count = some a ∧
        a = ⌊(rowB.count - minV exRows) / (maxV exRows - minV exRows) * 255⌋ ∧
        0 ≤ a ∧ a ≤ 255 ∧
        colorG (minV exRows) (maxV exRows) rowB.count = some b ∧
        b = ⌊255 - (rowB.count - minV exRows) / (maxV exRows - minV exRows) * 100⌋ ∧
        155 ≤ b ∧ b ≤ 255) :=
  ⟨by decide, by decide,
    C4_truncated_color_ranges exRows (by decide) rowB (by decide)⟩

/-- C5: with a genuine spread, the size is exactly
`100 + (v - min_v) / (max_v - min_v) * 4900`, lies in [100, 5000], and
hits 100 at the minimum count and 5000 at the maximum count. -/
theorem C5_size_linear (xs : List JoinedRow) (hlt : minV xs < maxV xs)
    (r : JoinedRow) (hr : r ∈ xs) :
    encSize (minV xs) (maxV xs) r.count
        = 100 + (r.count - minV xs) / (maxV xs - minV xs) * 4900 ∧
      100 ≤ encSize (minV xs) (maxV xs) r.count ∧
      encSize (minV xs) (maxV xs) r.count ≤ 5000 ∧
      (r.count = minV xs → encSize (minV xs) (maxV xs) r.count = 100) ∧
      (r.count = maxV xs → encSize (minV xs) (maxV xs) r.count = 5000) := by
  have h0 := frac_nonneg hlt (minV_le hr)
  have h1 := frac_le_one hlt (le_maxV hr)
  have heq : encSize (minV xs) (maxV xs) r.count
      = 100 + (r.count - minV xs) / (maxV xs - minV xs) * 4900 := by
    simp [encSize, hlt]
  refine ⟨heq, ?_, ?_, ?_, ?_⟩
  · rw [heq]; nlinarith
  · rw [heq]; nlinarith
  · intro h; rw [heq, h]; simp
  · intro h
    have hne : maxV xs - minV xs ≠ 0 := ne_of_gt (by linarith)
    rw [heq, h, div_self hne]
    norm_num

/-- Witness for C5 on the spec's two-row scenario (sizes 100 and 5000). -/
theorem C5_size_linear_witness :
    minV exRows < maxV exRows ∧ rowA ∈ exRows ∧
      (encSize (minV exRows) (maxV exRows) rowA.count
          = 100 + (rowA.count - minV exRows) / (maxV exRows - minV exRows) * 4900 ∧
        100 ≤ encSize (minV exRows) (maxV exRows) rowA.count ∧
        encSize (minV exRows) (maxV exRows) rowA.count ≤ 5000 ∧
        (rowA.count = minV exRows →
          encSize (minV exRows) (maxV exRows) rowA.count = 100) ∧
        (rowA.count = maxV exRows →
          encSize (minV exRows) (maxV exRows) rowA.count = 5000)) :=
  ⟨by decide, by decide, C5_size_linear exRows (by decide) rowA (by decide)⟩

/-- C2: when `map_data` ends up empty, the cycle shows the "no data"
warning and touches none of the map, top-10 chart, and top-10 table
renderers (all guarded by `len(map_data) > 0`). -/
theorem C2_empty_no_data (t : List VisitRecord) (c : List CoordRecord)
    (m : ℕ) (h : mapData t c m = []) :
    (render t c m).noDataWarning = true ∧ (render t c m).mapView = none ∧
      (render t c m).top10Chart = none ∧ (render t c m).top10Table = none := by
  simp [render, h]

/-- Witness for C2: empty tables give an empty `map_data`. -/
theorem C2_empty_no_data_witness :
    mapData [] [] 1 = [] ∧
      ((render [] [] 1).noDataWarning = true ∧ (render [] [] 1).mapView = none ∧
        (render [] [] 1).top10Chart = none ∧ (render [] [] 1).top10Table = none) :=
  ⟨rfl, C2_empty_no_data [] [] 1 rfl⟩

/-- A row with count 0, for the C6 counterexample. -/
def zeroRow : JoinedRow := ⟨"Z", 1, 2, 0⟩

/-- Eleven rows all of count 0: the top-10 subset drops one row of
count 0, so both sums are 0 although the set has more than 10 rows. -/
def elevenZero : List JoinedRow := List.replicate 11 zeroRow

/-- C6 (counterexample): on eleven rows of count 0 the top-10 sum equals
the full sum even though the set has 11 > 10 rows, so "equality iff the
set has at most 10 rows" is false. -/
theorem C6_counterexample :
    ¬ ((((nlargest10 elevenZero).map (fun r => r.count)).sum
          = (elevenZero.map (fun r => r.count)).sum)
        ↔ elevenZero.length ≤ 10) := by
  have e1 : nlargest10 elevenZero = List.replicate 10 zeroRow := by decide
  have e2 : elevenZero.map (fun r => r.count) = List.replicate 11 0 := by decide
  have e3 : (List.replicate 10 zeroRow).map (fun r => r.count)
      = List.replicate 10 0 := by decide
  rw [e1, e2, e3]
  simp [List.sum_replicate, elevenZero]

/-- C6 (amended): for nonnegative counts, the top-10 sum never exceeds
the full sum, and the two are equal whenever the set has at most 10
rows.  (The converse fails: rows outside the top 10 may all have
count 0, and with negative counts even the inequality would fail.) -/
theorem C6_top10_sum (xs : List JoinedRow) (hpos : ∀ r ∈ xs, 0 ≤ r.count) :
    ((nlargest10 xs).map (fun r => r.count)).sum
        ≤ (xs.map (fun r => r.count)).sum ∧
      (xs.length ≤ 10 →
        ((nlargest10 xs).map (fun r => r.count)).sum
          = (xs.map (fun r => r.count)).sum) := by
  have hperm : List.Perm (List.insertionSort (fun a b => b.count ≤ a.count) xs) xs :=
    List.perm_insertionSort _ xs
  have hpermc : List.Perm
      ((List.insertionSort (fun a b => b.count ≤ a.count) xs).map
        (fun r => r.count))
      (xs.map (fun r => r.count)) := hperm.map _
  constructor
  · have hsplit :=
      List.sum_take_add_sum_drop
        ((List.insertionSort (fun a b => b.count ≤ a.count) xs).map
          (fun r => r.count)) 10
    have hdrop : 0 ≤ (((List.insertionSort (fun a b => b.count ≤ a.count) xs).map
        (fun r => r.count)).drop 10).sum := by
      refine List.sum_nonneg ?_
      intro x hx
      have hx' := List.mem_of_mem_drop hx
      rcases List.mem_map.mp hx' with ⟨r, hr, rfl⟩
      exact hpos r (hperm.mem_iff.mp hr)
    have hmt : (nlargest10 xs).map (fun r => r.count)
        = ((List.insertionSort (fun a b => b.count ≤ a.count) xs).map
            (fun r => r.count)).take 10 := by
      rw [nlargest10, List.map_take]
    rw [hmt, ← hpermc.sum_eq]
    linarith
  · intro hlen
    have hlen' : (List.insertionSort (fun a b => b.count ≤ a.count) xs).length ≤ 10 := by
      rw [hperm.length_eq]; exact hlen
    rw [nlargest10, List.take_of_length_le hlen']
    exact hpermc.sum_eq

/-- Witness for C6's amended theorem on the spec's two-row scenario. -/
theorem C6_top10_sum_witness :
    (∀ r ∈ exRows, 0 ≤ r.count) ∧
      (((nlargest10 exRows).map (fun r => r.count)).sum
          ≤ (exRows.map (fun r => r.count)).sum ∧
        (exRows.length ≤ 10 →
          ((nlargest10 exRows).map (fun r => r.count)).sum
            = (exRows.map (fun r => r.count)).sum)) :=
  ⟨by decide, C6_top10_sum exRows (by decide)⟩

/-- C7: the inner join on region code, projected back to region code,
yields exactly the codes present in both input tables. -/
theorem C7_join_projects_to_intersection (vs : List VisitRecord)
    (cs : List CoordRecord) (k : String) :
    k ∈ (mergeOn vs cs).map (fun p => p.1.code) ↔
      (k ∈ vs.map (fun v => v.code) ∧ k ∈ cs.map (fun c => c.code)) := by
  simp only [mergeOn, List.mem_map, List.mem_flatMap, List.mem_filter,
    decide_eq_true_eq]
  constructor
  · rintro ⟨p, ⟨v, hv, ⟨c, ⟨hc, hcv⟩, rfl⟩⟩, rfl⟩
    exact ⟨⟨v, hv, rfl⟩, ⟨c, hc, hcv⟩⟩
  · rintro ⟨⟨v, hv, rfl⟩, ⟨c, hc, hck⟩⟩
    exact ⟨(v, c), ⟨v, hv, ⟨c, ⟨hc, hck⟩, rfl⟩⟩, rfl⟩

/-- Bounds invariant for the session month under any sequence of
re-renders. -/
theorem foldl_stepMonth_bounds (as : List (Option (Fin 12))) :
    ∀ s : ℕ, 1 ≤ s → s ≤ 12 →
      1 ≤ as.foldl stepMonth s ∧ as.foldl stepMonth s ≤ 12 := by
  induction as with
  | nil => intro s h1 h2; exact ⟨h1, h2⟩
  | cons a l ih =>
    intro s h1 h2
    cases a with
    | none => simpa only [List.foldl_cons, stepMonth] using ih s h1 h2
    | some i =>
      simp only [List.foldl_cons, stepMonth]
      exact ih (i.val + 1) (by omega) (by have := i.isLt; omega)

/-- C8: the session month starts at 1, a click on button `i` (month
`i + 1`) overwrites it, no click keeps it, and after any sequence of
re-renders it is one of 1..12. -/
theorem C8_selected_month_state :
    initialMonth = 1 ∧
      (∀ (s : ℕ) (i : Fin 12), stepMonth s (some i) = i.val + 1) ∧
      (∀ s : ℕ, stepMonth s none = s) ∧
      (∀ as : List (Option (Fin 12)),
        1 ≤ runMonths as ∧ runMonths as ≤ 12) :=
  ⟨rfl, fun _ _ => rfl, fun _ => rfl,
    fun as => foldl_stepMonth_bounds as 1 le_rfl (by norm_num)⟩

/-- Visit table exhibiting sidebar dependence on the month: month 1 has
a single joined region (all-equal counts, so line 91 aborts the cycle),
month 2 has two regions with distinct counts (the cycle completes);
months 3 and 4 have no rows. -/
def depVisits : List VisitRecord :=
  [⟨"13101", 1, some 500⟩, ⟨"13101", 2, some 1000⟩, ⟨"13102", 2, some 3000⟩]

/-- Coordinate table matching both regions of `depVisits`. -/
def depCoords : List CoordRecord :=
  [⟨"13101", "A", some 35, some 139⟩, ⟨"13102", "B", some 36, some 140⟩]

/-- C9 (counterexample): over the same loaded tables, the month-1 cycle
aborts at line 91 (its one joined row has all-equal counts) before the
sidebar block runs, while the month-2 cycle renders the sidebar, so two
runs differing only in the selected month differ in sidebar output. -/
theorem C9_counterexample :
    (render depVisits depCoords 1).sidebar
      ≠ (render depVisits depCoords 2).sidebar := by
  have hmd1 : mapData depVisits depCoords 1 = [⟨"A", 35, 139, 500⟩] := by
    decide
  have hmd2 : mapData depVisits depCoords 2
      = [⟨"A", 35, 139, 1000⟩, ⟨"B", 36, 140, 3000⟩] := by
    decide
  have h1 : abortsAtLine91 (mapData depVisits depCoords 1) = true := by
    rw [hmd1]
    norm_num [abortsAtLine91, minV, maxV, colorR, nanFrac, astypeInt]
  have h2 : abortsAtLine91 (mapData depVisits depCoords 2) = false := by
    rw [hmd2]
    norm_num [abortsAtLine91, minV, maxV, min_def, max_def, colorR, nanFrac,
      astypeInt]
  simp [render, h1, h2]

/-- C9 (amended): for two runs over the same tables that differ only in
the selected month, if neither run aborts at line 91 (its `map_data`
is empty or has a genuine spread of counts), the sidebar outputs are
identical — the sidebar block reads only the loaded tables. -/
theorem C9_sidebar_month_independent (t : List VisitRecord)
    (c : List CoordRecord) (m₁ m₂ : ℕ)
    (h₁ : abortsAtLine91 (mapData t c m₁) = false)
    (h₂ : abortsAtLine91 (mapData t c m₂) = false) :
    (render t c m₁).sidebar = (render t c m₂).sidebar := by
  simp [render, h₁, h₂]

/-- Witness for C9's amended theorem: months 3 and 4 of `depVisits` are
both empty, neither cycle aborts, and the sidebars agree. -/
theorem C9_sidebar_month_independent_witness :
    abortsAtLine91 (mapData depVisits depCoords 3) = false ∧
      abortsAtLine91 (mapData depVisits depCoords 4) = false ∧
      (render depVisits depCoords 3).sidebar
        = (render depVisits depCoords 4).sidebar :=
  ⟨rfl, rfl, C9_sidebar_month_independent depVisits depCoords 3 4 rfl rfl⟩

/-- A visit row whose region code matches no coordinate row contributes
nothing to `map_data` for any month. -/
theorem mapData_cons_unmatched (t : List VisitRecord) (c : List CoordRecord)
    (r : VisitRecord) (hc : ∀ cr ∈ c, cr.code ≠ r.code) (m : ℕ) :
    mapData (r :: t) c m = mapData t c m := by
  have hfilter : c.filter (fun cr => cr.code = r.code) = [] := by
    rw [List.filter_eq_nil_iff]
    intro cr hcr
    simpa using hc cr hcr
  unfold mapData monthlyData
  by_cases hm : r.month = m
  · simp [mergeOn, coerceDrop, hm, hfilter]
  · simp [mergeOn, hm]

/-- C10: the sidebar totals are taken over the raw visit table, so a
visit row with a numeric count but no coordinate match still adds its
count to the annual total and to its month's trend value, while leaving
`map_data` — hence the map, the top-10 chart/table, and all three
metric widgets — unchanged for every month. -/
theorem C10_sidebar_counts_unmatched (t : List VisitRecord)
    (c : List CoordRecord) (r : VisitRecord) (q : ℚ) (hq : r.count = some q)
    (hc : ∀ cr ∈ c, cr.code ≠ r.code) (m : ℕ) :
    (sidebarView (r :: t) c).annualTotal = q + (sidebarView t c).annualTotal ∧
      monthSum (r :: t) r.month = q + monthSum t r.month ∧
      mapData (r :: t) c m = mapData t c m ∧
      (render (r :: t) c m).totalMetric = (render t c m).totalMetric ∧
      (render (r :: t) c m).meanMetric = (render t c m).meanMetric ∧
      (render (r :: t) c m).regionCountMetric
        = (render t c m).regionCountMetric ∧
      (render (r :: t) c m).mapView = (render t c m).mapView ∧
      (render (r :: t) c m).top10Chart = (render t c m).top10Chart ∧
      (render (r :: t) c m).top10Table = (render t c m).top10Table := by
  have hmd := mapData_cons_unmatched t c r hc m
  refine ⟨?_, ?_, hmd, ?_, ?_, ?_, ?_, ?_, ?_⟩
  · simp [sidebarView, skipnaSum, hq]
  · simp [monthSum, skipnaSum, hq]
  · simp [render, hmd]
  · simp [render, hmd]
  · simp [render, hmd]
  · simp [render, hmd]
  · simp [render, hmd]
  · simp [render, hmd]

/-- An unmatched visit row for the C10 witness. -/
def wVisit : VisitRecord := ⟨"99999", 3, some 7⟩

/-- A coordinate table without the code "99999", for the C10 witness. -/
def wCoords : List CoordRecord := [⟨"13101", "A", some 35, some 139⟩]

/-- Witness for C10 at a concrete unmatched row. -/
theorem C10_sidebar_counts_unmatched_witness :
    wVisit.count = some 7 ∧ (∀ cr ∈ wCoords, cr.code ≠ wVisit.code) ∧
      ((sidebarView (wVisit :: []) wCoords).annualTotal
          = 7 + (sidebarView [] wCoords).annualTotal ∧
        monthSum (wVisit :: []) wVisit.month = 7 + monthSum [] wVisit.month ∧
        mapData (wVisit :: []) wCoords 3 = mapData [] wCoords 3 ∧
        (render (wVisit :: []) wCoords 3).totalMetric
          = (render [] wCoords 3).totalMetric ∧
        (render (wVisit :: []) wCoords 3).meanMetric
          = (render [] wCoords 3).meanMetric ∧
        (render (wVisit :: []) wCoords 3).regionCountMetric
          = (render [] wCoords 3).regionCountMetric ∧
        (render (wVisit :: []) wCoords 3).mapView
          = (render [] wCoords 3).mapView ∧
        (render (wVisit :: []) wCoords 3).top10Chart
          = (render [] wCoords 3).top10Chart ∧
        (render (wVisit :: []) wCoords 3).top10Table
          = (render [] wCoords 3).top10Table) :=
  ⟨rfl, by decide,
    C10_sidebar_counts_unmatched [] wCoords wVisit 7 rfl (by decide) 3⟩

end TourismApp
